import Mathlib

/-!
Shallow embedding of the salesdash analytics and forecasting core
(`src/data_loader.py`, `src/services/analytics_service.py`,
`src/services/forecasting_service.py`) together with proofs about the
behaviours documented in the specification.

Conventions of the embedding:
* pandas timestamps are day-granular calendar dates (`Date`), compared and
  subtracted through their serial day number (`Date.toDays`, proleptic
  Gregorian, 1970-01-01 = 0);
* float arithmetic is modelled exactly over `ℚ`; the one genuinely
  irrational operation (the residual standard deviation, a square root) is
  modelled over `ℝ`;
* a missing cell (NaN / NaT) is `Option.none`; pandas sums skip missing
  values, which `sumOpt` mirrors;
* a DataFrame is a `Table`: a list of rows plus flags recording which of
  the optional columns exist (pandas distinguishes an absent column from a
  column of NaNs);
* pandas exceptions are `Except`; the file system touched by the forecast
  loader is explicit state (`FsState`).
-/

namespace SalesDash

/-- Calendar date; mirrors a day-granular pandas timestamp. -/
structure Date where
  year : Int
  month : Int
  day : Int
deriving DecidableEq, Repr

/-- Serial day number of a calendar date (days since 1970-01-01), via the
standard civil-from-days construction.  Pandas timestamp comparison and
`Timedelta.days` arithmetic are modelled through this map. -/
def Date.toDays (dt : Date) : Int :=
  let y : Int := if dt.month ≤ 2 then dt.year - 1 else dt.year
  let era : Int := (if 0 ≤ y then y else y - 399).tdiv 400
  let yoe : Int := y - era * 400
  let mp : Int := (dt.month + 9).tmod 12
  let doy : Int := (153 * mp + 2).tdiv 5 + dt.day - 1
  let doe : Int := yoe * 365 + yoe.tdiv 4 - yoe.tdiv 100 + doy
  era * 146097 + doe - 719468

/-- Index of the calendar month containing the date (months since year 0);
the key used when resampling with the month-start frequency `MS`. -/
def Date.monthIdx (dt : Date) : Int :=
  12 * dt.year + (dt.month - 1)

/-- One sales record.  Cells that can be missing (NaN / NaT after coercion)
are `Option`s. -/
structure Row where
  orderDate : Option Date
  sales : Option ℚ
  profit : Option ℚ
  quantity : Option ℚ
  country : Option String
  status : Option String
deriving DecidableEq, Repr

/-- A DataFrame: its rows plus presence flags for the columns whose absence
the source code observes (`"Order Date" in df`, `df.get("Sales", ...)`,
`df.get("Total Profit/Loss", ...)`). -/
structure Table where
  rows : List Row
  hasOrderDate : Bool
  hasSales : Bool
  hasProfit : Bool
deriving DecidableEq, Repr

/-- Pandas column sum: missing values do not participate, the empty sum is 0. -/
def sumOpt (l : List (Option ℚ)) : ℚ :=
  (l.filterMap id).sum

/-- `df.get("Sales", empty).sum()`: 0 when the column is absent. -/
def tableSales (t : Table) : ℚ :=
  if t.hasSales then sumOpt (t.rows.map (·.sales)) else 0

/-- `df.get("Total Profit/Loss", empty).sum()`: 0 when the column is absent. -/
def tableProfit (t : Table) : ℚ :=
  if t.hasProfit then sumOpt (t.rows.map (·.profit)) else 0

/-- Serial day numbers of the parseable order dates of a table
(`df["Order Date"]` with NaT entries skipped, as `.min()` / `.max()` do). -/
def validDays (t : Table) : List Int :=
  t.rows.filterMap (fun r => r.orderDate.map Date.toDays)

/-- `_safe_divide`: numerator / denominator guarding against zero. -/
def safe_divide (numerator denominator : ℚ) : ℚ :=
  if denominator = 0 then 0 else numerator / denominator

/-- `_percentage_change`: `None` when the baseline is zero. -/
def percentage_change (current previous : ℚ) : Option ℚ :=
  if previous = 0 then none
  else some ((current - previous) / previous * 100)

/-- `build_comparison_window(current_df, full_df)`: the slice of the full
table whose dates fall in the equally long period immediately preceding the
current selection.  `none` stands for a `None` DataFrame argument. -/
def build_comparison_window (current full : Option Table) : List Row :=
  match current, full with
  | some c, some f =>
    if c.rows.isEmpty || !c.hasOrderDate || f.rows.isEmpty || !f.hasOrderDate then []
    else
      match (validDays c).min?, (validDays c).max? with
      | some currentStart, some currentEnd =>
        let periodDays : Int := max (currentEnd - currentStart + 1) 1
        let prevEnd : Int := currentStart - 1
        let prevStart : Int := prevEnd - (periodDays - 1)
        f.rows.filter (fun r =>
          match r.orderDate with
          | some d => decide (prevStart ≤ d.toDays ∧ d.toDays ≤ prevEnd)
          | none => false)
      | _, _ => []
  | _, _ => []

/-- Month-indexed rows of a table: each row with a parseable order date,
keyed by the month of that date (`dropna` + `set_index` before resampling). -/
def datedPairs (t : Table) : List (Int × Row) :=
  t.rows.filterMap (fun r => r.orderDate.map (fun d => (d.monthIdx, r)))

/-- The contiguous run of month indices `lo, lo+1, ..., hi`; the bins a
pandas month-start resample materialises between the first and last
populated month. -/
def monthSpan (lo hi : Int) : List Int :=
  (List.range (hi + 1 - lo).toNat).map (fun i : Nat => lo + (i : Int))

/-- Rows of a month-indexed list that fall in month `k`. -/
def monthGroup (ps : List (Int × Row)) (k : Int) : List Row :=
  (ps.filter (fun p => p.1 = k)).map (·.2)

/-- One output row of `aggregate_time_series`. -/
structure AggRow where
  period : Int
  sales : ℚ
  profit : ℚ
  quantity : ℚ
  margin : ℚ
deriving DecidableEq, Repr

/-- The aggregation row of month `k`: column sums over the rows of that
month, then `Profit Margin` via `_safe_divide(profit, sales) * 100 if sales else 0`. -/
def aggRowFor (ps : List (Int × Row)) (k : Int) : AggRow :=
  let grp := monthGroup ps k
  let s := sumOpt (grp.map (·.sales))
  let p := sumOpt (grp.map (·.profit))
  let q := sumOpt (grp.map (·.quantity))
  { period := k
    sales := s
    profit := p
    quantity := q
    margin := if s = 0 then 0 else safe_divide p s * 100 }

/-- `aggregate_time_series(df)` at the default month-start frequency
(`period="MS"`): rows with unparseable dates are dropped, the remaining rows
are resampled into every month between the first and the last populated one
(pandas `resample` materialises the in-between bins), and each bin sums
sales, profit and quantity and derives the profit margin. -/
def aggregate_time_series (df : Option Table) : List AggRow :=
  match df with
  | none => []
  | some t =>
    if t.rows.isEmpty || !t.hasOrderDate then []
    else
      let ps := datedPairs t
      match (ps.map Prod.fst).min?, (ps.map Prod.fst).max? with
      | some lo, some hi => (monthSpan lo hi).map (aggRowFor ps)
      | _, _ => []

/-- `KpiResult`: the KPI container returned by `calculate_kpis`. -/
structure KpiResult where
  total_revenue : ℚ
  total_profit : ℚ
  profit_margin : ℚ
  total_orders : Nat
  avg_order_value : ℚ
  revenue_change : Option ℚ
  profit_change : Option ℚ
deriving DecidableEq, Repr

/-- The all-zero KPI snapshot built for a `None` or empty current table. -/
def emptyKpiResult : KpiResult :=
  { total_revenue := 0
    total_profit := 0
    profit_margin := 0
    total_orders := 0
    avg_order_value := 0
    revenue_change := none
    profit_change := none }

/-- `calculate_kpis(current_df, comparison_df)`. -/
def calculate_kpis (current comparison : Option Table) : KpiResult :=
  match current with
  | none => emptyKpiResult
  | some c =>
    if c.rows.isEmpty then emptyKpiResult
    else
      let total_revenue := tableSales c
      let total_profit := tableProfit c
      let total_orders := c.rows.length
      let avg_order_value :=
        if total_orders = 0 then 0 else safe_divide total_revenue total_orders
      let profit_margin :=
        if total_revenue = 0 then 0 else safe_divide total_profit total_revenue * 100
      let changes : Option ℚ × Option ℚ :=
        match comparison with
        | none => (none, none)
        | some cmp =>
          if cmp.rows.isEmpty then (none, none)
          else
            (percentage_change total_revenue (tableSales cmp),
             percentage_change total_profit (tableProfit cmp))
      { total_revenue := total_revenue
        total_profit := total_profit
        profit_margin := profit_margin
        total_orders := total_orders
        avg_order_value := avg_order_value
        revenue_change := changes.1
        profit_change := changes.2 }

/-- `calculate_kpis` as observed by the Python runtime: the ambient wall
clock and entropy source are in scope for every call, but the function body
never consults either, which the definition records by ignoring both. -/
def calculate_kpis_env (now entropy : Int) (current comparison : Option Table) : KpiResult :=
  let _ := now
  let _ := entropy
  calculate_kpis current comparison

/-- Python truthiness of an optional sequence argument: `None` and the empty
sequence are both falsy (`if countries:` / `if status_filter:`). -/
def seqTruthy (s : Option (List String)) : Bool :=
  match s with
  | none => false
  | some l => !l.isEmpty

/-- `get_filtered_data(df, start_date, end_date, countries, status_filter)`:
the inclusive date-range mask (applied only when the `Order Date` column
exists; NaT rows never satisfy it), then `isin` masks for countries and
statuses whenever those arguments are truthy. -/
def get_filtered_data (df : Table) (startDay endDay : Int)
    (countries statusFilter : Option (List String)) : List Row :=
  let afterDate :=
    if df.hasOrderDate then
      df.rows.filter (fun r =>
        match r.orderDate with
        | some d => decide (startDay ≤ d.toDays ∧ d.toDays ≤ endDay)
        | none => false)
    else df.rows
  let afterCountry :=
    if seqTruthy countries then
      afterDate.filter (fun r =>
        match r.country with
        | some c => (countries.getD []).contains c
        | none => false)
    else afterDate
  if seqTruthy statusFilter then
    afterCountry.filter (fun r =>
      match r.status with
      | some s => (statusFilter.getD []).contains s
      | none => false)
  else afterCountry

/-- `ForecastConfig`: configuration of the forecast pipeline. -/
structure ForecastConfig where
  metric : String
  horizon : Nat
  confidence_level : ℚ
  window : Nat
deriving DecidableEq, Repr

/-- The default configuration (`metric="Sales"`, `horizon=12`,
`confidence_level=0.95`, `window=3`). -/
def defaultForecastConfig : ForecastConfig :=
  { metric := "Sales", horizon := 12, confidence_level := 95 / 100, window := 3 }

/-- `_in_sample_moving_average(values, window)`:
`values.rolling(window=max(1, window), min_periods=1).mean()` — at position
`i` the mean of the up-to-`window` most recent values ending at `i`. -/
def inSampleMA (values : List ℚ) (window : Nat) : List ℚ :=
  let w := max 1 window
  (List.range values.length).map (fun i =>
    let seg := (values.take (i + 1)).drop (i + 1 - w)
    seg.sum / (seg.length : ℚ))

/-- In-sample residuals: actual minus moving-average fit
(`history["value"] - in_sample`; with `min_periods=1` no entry is NaN, so
the subsequent `dropna` keeps every position). -/
def residualsOf (values : List ℚ) (window : Nat) : List ℚ :=
  values.zipWith (· - ·) (inSampleMA values window)

/-- `mean_absolute_error(history["value"], in_sample)`. -/
def maeOf (values : List ℚ) (window : Nat) : ℚ :=
  ((residualsOf values window).map (fun r => |r|)).sum / (values.length : ℚ)

/-- Sample variance with divisor `N - 1`, the square of `Series.std(ddof=1)`.
Division by zero in `ℚ` yields 0, so lists of length at most one get 0. -/
def sampleVar (xs : List ℚ) : ℚ :=
  let m := xs.sum / (xs.length : ℚ)
  ((xs.map (fun x => (x - m) ^ 2)).sum) / ((xs.length : ℚ) - 1)

/-- `std_error = float(residuals.std(ddof=1)) if len(residuals) > 1 else 0.0`. -/
noncomputable def stdErrorOf (values : List ℚ) (window : Nat) : ℝ :=
  if 1 < (residualsOf values window).length then
    Real.sqrt (sampleVar (residualsOf values window))
  else 0

/-- `z_value = 1.96 if abs(confidence_level - 0.95) < 1e-3 else 1.0`. -/
def zValue (confidence_level : ℚ) : ℚ :=
  if |confidence_level - 95 / 100| < 1 / 1000 then 196 / 100 else 1

/-- `ci_delta = z_value * std_error if std_error else 0.0` (float truthiness:
a zero standard error short-circuits to 0). -/
noncomputable def ciDeltaOf (values : List ℚ) (window : Nat) (confidence_level : ℚ) : ℝ :=
  if stdErrorOf values window = 0 then 0
  else (zValue confidence_level : ℝ) * stdErrorOf values window

/-- The loop of `_forecast_moving_average`: at each step the forecast is the
mean of the trailing buffer (0 for an empty buffer), is appended to the
buffer, and the buffer is cut back to its most recent `w` entries when it
exceeds `w`. -/
def forecastMALoop (w : Nat) : Nat → List ℚ → List ℚ
  | 0, _ => []
  | n + 1, recent =>
    let avg := if recent.isEmpty then 0 else recent.sum / (recent.length : ℚ)
    let appended := recent ++ [avg]
    let next :=
      if w < appended.length then appended.drop (appended.length - w) else appended
    avg :: forecastMALoop w n next

/-- `_forecast_moving_average(values, window, horizon)`: seeds the trailing
buffer with `history[-window:]` (all of it when shorter) and iterates the
loop `horizon` times.  The source re-seeds with the whole history when the
slice comes back empty while the history is not; that branch is kept even
though a nonempty history always yields a nonempty slice. -/
def forecastMovingAverage (values : List ℚ) (window horizon : Nat) : List ℚ :=
  let w := max 1 window
  let recent := if values.isEmpty then [] else values.drop (values.length - w)
  let recent := if recent.isEmpty && !values.isEmpty then values else recent
  forecastMALoop w horizon recent

/-- The last `w` entries of a list (all of it when shorter). -/
def takeLast (w : Nat) (xs : List ℚ) : List ℚ :=
  xs.drop (xs.length - w)

/-- One step of the recurrence as the spec words it: the forecast point is
the mean of the buffer, the point is appended, and the buffer is truncated
to the most recent `w` entries. -/
def specMALoop (w : Nat) : Nat → List ℚ → List ℚ
  | 0, _ => []
  | n + 1, buffer =>
    let point := buffer.sum / (buffer.length : ℚ)
    point :: specMALoop w n (takeLast w (buffer ++ [point]))

/-- The forecast recurrence exactly as the specification words it: a
trailing buffer seeded with the last `w` actual values (or all of them when
fewer exist), then `h` iterations of `specMALoop`. -/
def spec_forecast_moving_average (values : List ℚ) (w h : Nat) : List ℚ :=
  specMALoop w h (takeLast w values)

/-- Kind of an artifact row (`type` column: `"actual"` or `"forecast"`). -/
inductive RowType
  | actual
  | forecast
deriving DecidableEq, Repr

/-- One row of the forecast artifact.  The bounds live in `ℝ` because the
confidence half-width involves a square root; every other numeric column is
exact. -/
structure ArtifactRow where
  period_start : Int
  metric : String
  value : ℚ
  rtype : RowType
  lower_bound : ℝ
  upper_bound : ℝ
  method : String
  horizon : Nat
  generated_at : Int
  confidence_level : ℚ
  evaluation_metric : String
  evaluation_value : ℚ
  training_start : Int
  training_end : Int

/-- `_build_forecast_rows(history, config, artifact_timestamp)`: the actual
rows (horizon 0, zero-width band) followed by the forecast rows (horizon
`1..H`, band of half-width `ci_delta`, month-start periods continuing the
training series). -/
noncomputable def build_forecast_rows (history : List (Int × ℚ)) (cfg : ForecastConfig)
    (artifactTimestamp : Int) : List ArtifactRow :=
  let w := max 1 cfg.window
  let values := history.map Prod.snd
  let maeValue := maeOf values w
  let ciDelta := ciDeltaOf values w cfg.confidence_level
  let lastPeriod := (history.map Prod.fst).max?.getD 0
  let firstPeriod := (history.map Prod.fst).min?.getD 0
  let forecastValues := forecastMovingAverage values w cfg.horizon
  let actualRows := history.map (fun p => (
    { period_start := p.1
      metric := cfg.metric
      value := p.2
      rtype := RowType.actual
      lower_bound := (p.2 : ℝ)
      upper_bound := (p.2 : ℝ)
      method := "moving_average"
      horizon := 0
      generated_at := artifactTimestamp
      confidence_level := cfg.confidence_level
      evaluation_metric := "MAE"
      evaluation_value := maeValue
      training_start := firstPeriod
      training_end := lastPeriod } : ArtifactRow))
  let forecastRows := (forecastValues.zip (List.range cfg.horizon)).map (fun vi => (
    { period_start := lastPeriod + 1 + (vi.2 : Int)
      metric := cfg.metric
      value := vi.1
      rtype := RowType.forecast
      lower_bound := max ((vi.1 : ℝ) - ciDelta) 0
      upper_bound := (vi.1 : ℝ) + ciDelta
      method := "moving_average"
      horizon := vi.2 + 1
      generated_at := artifactTimestamp
      confidence_level := cfg.confidence_level
      evaluation_metric := "MAE"
      evaluation_value := maeValue
      training_start := firstPeriod
      training_end := lastPeriod } : ArtifactRow))
  actualRows ++ forecastRows

/-- Errors of the pipeline: `FileNotFoundError`, `ValueError` / `KeyError`
during training-frame validation, the `ValueError` raised by `pd.read_csv`
itself when a column requested through `parse_dates` is absent from the
file (carrying the sorted missing date-column names), and the loader schema
`ValueError` that carries the sorted missing expected-column names. -/
inductive PipelineError
  | notFound
  | validationError (message : String)
  | parseDatesError (missing : List String)
  | schemaError (missing : List String)
deriving DecidableEq, Repr

/-- Whether the metric column exists in the canonical table
(`metric not in df.columns`). -/
def metricColumnPresent (t : Table) (metric : String) : Bool :=
  if metric = "Sales" then t.hasSales
  else if metric = "Total Profit/Loss" then t.hasProfit
  else false

/-- The metric cell of a record. -/
def metricCell (r : Row) (metric : String) : Option ℚ :=
  if metric = "Sales" then r.sales
  else if metric = "Total Profit/Loss" then r.profit
  else none

/-- Month-start resample of a keyed value series: one bin per month between
the first and last populated month, each holding the bin sum. -/
def monthlyTotals (pairs : List (Int × ℚ)) : List (Int × ℚ) :=
  match (pairs.map Prod.fst).min?, (pairs.map Prod.fst).max? with
  | some lo, some hi =>
    (monthSpan lo hi).map (fun k =>
      (k, ((pairs.filter (fun p => p.1 = k)).map Prod.snd).sum))
  | _, _ => []

/-- `_prepare_training_frame(df, metric)`: validation, `dropna` on date and
metric, monthly resample to sums sorted ascending by period. -/
def prepare_training_frame (df : Option Table) (metric : String) :
    Except PipelineError (List (Int × ℚ)) :=
  match df with
  | none =>
    .error (.validationError "Sales dataset is empty; cannot build forecast model.")
  | some t =>
    if t.rows.isEmpty then
      .error (.validationError "Sales dataset is empty; cannot build forecast model.")
    else if !t.hasOrderDate then
      .error (.validationError "Dataset missing Order Date column required for forecasting.")
    else if !metricColumnPresent t metric then
      .error (.validationError "Dataset missing metric column.")
    else
      let pairs := t.rows.filterMap (fun r =>
        match r.orderDate, metricCell r metric with
        | some d, some v => some (d.monthIdx, v)
        | _, _ => none)
      let aggregated := monthlyTotals pairs
      if aggregated.isEmpty then
        .error (.validationError "Monthly aggregation produced no rows; check data integrity.")
      else .ok aggregated

/-- Column header list of the generated artifact, in construction order. -/
def ARTIFACT_COLUMNS : List String :=
  ["period_start", "metric", "value", "type", "lower_bound", "upper_bound",
   "method", "horizon", "generated_at", "confidence_level",
   "evaluation_metric", "evaluation_value", "training_start", "training_end"]

/-- `_EXPECTED_COLUMNS`: the columns the loader requires. -/
def EXPECTED_COLUMNS : List String := ARTIFACT_COLUMNS

/-- A delimited artifact file on disk: its header row and its records. -/
structure CsvFile where
  columns : List String
  records : List ArtifactRow

/-- The file-system state the pipeline touches: the artifact file at the
resolved path, and the canonical dataset `load_data` provides (`none` when
neither the cached CSV nor the raw workbook exists). -/
structure FsState where
  artifactFile : Option CsvFile
  dataset : Option Table

/-- `generate_forecast_artifact(output_path, config)`: load the canonical
dataset, build the training frame, assemble the combined rows with a fresh
timestamp and persist them wholesale.  Failures leave the file untouched. -/
noncomputable def generate_forecast_artifact (now : Int) (config : Option ForecastConfig)
    (st : FsState) : Except PipelineError FsState :=
  let cfg := config.getD defaultForecastConfig
  match st.dataset with
  | none => .error .notFound
  | some _ =>
    match prepare_training_frame st.dataset cfg.metric with
    | .error e => .error e
    | .ok history =>
      let combined := build_forecast_rows history cfg now
      .ok { st with artifactFile := some { columns := ARTIFACT_COLUMNS, records := combined } }

/-- The expected columns absent from a header, listed in ascending order
(`sorted(_EXPECTED_COLUMNS.difference(frame.columns))`). -/
def missingColumnsOf (columns : List String) : List String :=
  (EXPECTED_COLUMNS.filter (fun c => !columns.contains c)).mergeSort (fun a b => a ≤ b)

/-- The columns the loader passes to `pd.read_csv` through `parse_dates`. -/
def PARSE_DATES_COLUMNS : List String :=
  ["period_start", "generated_at", "training_start", "training_end"]

/-- The `parse_dates` columns absent from a header, in ascending order; when
nonempty, `pd.read_csv` raises its missing-parse-dates `ValueError` naming
them before any schema validation can run. -/
def missingParseDatesOf (columns : List String) : List String :=
  (PARSE_DATES_COLUMNS.filter (fun c => !columns.contains c)).mergeSort (fun a b => a ≤ b)

/-- Reading the artifact back: `pd.read_csv(path, parse_dates=[...])` on the
resolved path — which itself fails, naming only the absent date columns,
whenever a `parse_dates` column is missing from the file — followed, only
when the read succeeds, by the schema validation that lists any missing
expected columns. -/
def readArtifact (st : FsState) : Except PipelineError CsvFile :=
  match st.artifactFile with
  | none => .error .notFound
  | some f =>
    if !(missingParseDatesOf f.columns).isEmpty then
      .error (.parseDatesError (missingParseDatesOf f.columns))
    else if (missingColumnsOf f.columns).isEmpty then .ok f
    else .error (.schemaError (missingColumnsOf f.columns))

/-- `load_forecast_results(artifact_path, force_refresh)`: regenerate first
exactly when a refresh is forced or the file does not exist, then read and
validate.  Returns the loaded table (or the error) with the resulting file
system. -/
noncomputable def load_forecast_results (force_refresh : Bool) (now : Int) (st : FsState) :
    Except PipelineError CsvFile × FsState :=
  if force_refresh || st.artifactFile.isNone then
    match generate_forecast_artifact now none st with
    | .error e => (.error e, st)
    | .ok st2 => (readArtifact st2, st2)
  else (readArtifact st, st)

/-! ### Shared helper lemmas -/

theorem int_min?_le {xs : List Int} {a b : Int} (h : xs.min? = some a) (hb : b ∈ xs) :
    a ≤ b := by
  haveI : Std.Antisymm (fun x1 x2 : Int => x1 ≤ x2) := ⟨fun h1 h2 => le_antisymm h1 h2⟩
  exact ((List.min?_eq_some_iff (fun a => le_refl a) (fun a b => min_choice a b)
    (fun a b c => le_min_iff)).1 h).2 b hb

theorem int_le_max? {xs : List Int} {a b : Int} (h : xs.max? = some a) (hb : b ∈ xs) :
    b ≤ a := by
  haveI : Std.Antisymm (fun x1 x2 : Int => x1 ≤ x2) := ⟨fun h1 h2 => le_antisymm h1 h2⟩
  exact ((List.max?_eq_some_iff (fun a => le_refl a) (fun a b => max_choice a b)
    (fun a b c => max_le_iff)).1 h).2 b hb

theorem mem_monthSpan {lo hi k : Int} : k ∈ monthSpan lo hi ↔ lo ≤ k ∧ k ≤ hi := by
  constructor
  · intro h
    obtain ⟨i, hir, hk⟩ := List.mem_map.1 h
    have hlt := List.mem_range.1 hir
    subst hk
    omega
  · intro h
    exact List.mem_map.2 ⟨(k - lo).toNat, List.mem_range.2 (by omega), by omega⟩

/-! ### Sample data used by witnesses -/

/-- A record dated 2023-01-31. -/
def janRow : Row :=
  { orderDate := some ⟨2023, 1, 31⟩, sales := some 150, profit := some 15,
    quantity := some 2, country := some "USA", status := some "Shipped" }

/-- A record dated 2023-02-01. -/
def febRow : Row :=
  { orderDate := some ⟨2023, 2, 1⟩, sales := some 200, profit := some 20,
    quantity := some 3, country := some "France", status := some "Shipped" }

/-- Full history holding the 2023-01-31 and 2023-02-01 records. -/
def sampleFull : Table :=
  { rows := [janRow, febRow], hasOrderDate := true, hasSales := true, hasProfit := true }

/-- Current selection holding only the 2023-02-01 record. -/
def sampleCurrent : Table :=
  { rows := [febRow], hasOrderDate := true, hasSales := true, hasProfit := true }

/-! ### C1 -/

/-- C1: for a current table with at least one valid order date (so its span
minimum `cs` and maximum `ce` exist) and a full table carrying the
`Order Date` column, `build_comparison_window` returns exactly the rows of
the full table whose date lies in the `N` calendar days immediately
preceding `cs` — the inclusive day range `[cs - N, cs - 1]` — where
`N = (ce - cs) + 1` floored at 1. -/
theorem comparison_window_spec (c f : Table) (cs ce : Int)
    (hc : c.hasOrderDate = true) (hf : f.hasOrderDate = true)
    (hmin : (validDays c).min? = some cs) (hmax : (validDays c).max? = some ce) :
    build_comparison_window (some c) (some f) =
      f.rows.filter (fun r =>
        match r.orderDate with
        | some d => decide (cs - max (ce - cs + 1) 1 ≤ d.toDays ∧ d.toDays ≤ cs - 1)
        | none => false) := by
  have hvd : validDays c ≠ [] := by
    intro h
    rw [h] at hmin
    exact (by simp at hmin : False)
  have hrows : c.rows.isEmpty = false := by
    cases hr : c.rows.isEmpty
    · rfl
    · exact absurd (by simp [validDays, List.isEmpty_iff.1 hr]) hvd
  by_cases hfr : f.rows.isEmpty
  · have hfnil : f.rows = [] := List.isEmpty_iff.1 hfr
    simp [build_comparison_window, hrows, hc, hf, hfr, hfnil]
  · have harith : cs - 1 - (max (ce - cs + 1) 1 - 1) = cs - max (ce - cs + 1) 1 := by
      omega
    simp only [build_comparison_window, hrows, hc, hf,
      Bool.not_true, Bool.or_false, Bool.false_or, eq_self_iff_true,
      Bool.not_eq_true', Bool.or_eq_true, if_neg, hfr, if_false,
      Bool.false_eq_true, or_self, ite_false, hmin, hmax, harith]

/-- C1 witness: the concrete instance from the specification — current
window 2023-02-01 .. 2023-02-01 (serial day 19389) against a full history
holding 2023-01-31 and 2023-02-01 selects exactly the 2023-01-31 record. -/
theorem comparison_window_spec_witness :
    sampleCurrent.hasOrderDate = true
    ∧ (validDays sampleCurrent).min? = some 19389
    ∧ (validDays sampleCurrent).max? = some 19389
    ∧ build_comparison_window (some sampleCurrent) (some sampleFull) =
        sampleFull.rows.filter (fun r =>
          match r.orderDate with
          | some d => decide (19389 - max (19389 - 19389 + 1) 1 ≤ d.toDays ∧ d.toDays ≤ 19389 - 1)
          | none => false)
    ∧ build_comparison_window (some sampleCurrent) (some sampleFull) = [janRow] :=
  ⟨rfl, by decide, by decide,
   comparison_window_spec sampleCurrent sampleFull 19389 19389 rfl rfl
     (by decide) (by decide),
   by decide⟩

/-! ### C2 -/

/-- Table whose populated months are January and March 2023, leaving
February empty. -/
def gapTable : Table :=
  { rows :=
      [{ orderDate := some ⟨2023, 1, 15⟩, sales := some 100, profit := some 30,
         quantity := some 2, country := some "USA", status := some "Shipped" },
       { orderDate := some ⟨2023, 3, 10⟩, sales := some 200, profit := some 60,
         quantity := some 3, country := some "USA", status := some "Shipped" }],
    hasOrderDate := true, hasSales := true, hasProfit := true }

/-- C2 counterexample: on a table populated only in January and March 2023,
the monthly aggregation emits a February row (zero sales) whose period
contains no input row, so calendar periods with no rows are not omitted. -/
theorem aggregate_gap_counterexample :
    ∃ a ∈ aggregate_time_series (some gapTable),
      (∀ r ∈ gapTable.rows, r.orderDate.map Date.monthIdx ≠ some a.period) ∧ a.sales = 0 := by
  have hmin : ((datedPairs gapTable).map Prod.fst).min? = some 24276 := by decide
  have hmax : ((datedPairs gapTable).map Prod.fst).max? = some 24278 := by decide
  refine ⟨aggRowFor (datedPairs gapTable) 24277, ?_, by decide, ?_⟩
  · simp only [aggregate_time_series, hmin, hmax]
    exact List.mem_map.2 ⟨24277, mem_monthSpan.2 (by norm_num), rfl⟩
  · have hg : (monthGroup (datedPairs gapTable) 24277).map (·.sales) = [] := by decide
    simp [aggRowFor, hg, sumOpt]

/-- C2 (amended): monthly aggregation groups the usable-date rows by the
calendar month of their date and sums sales, profit and quantity per month
(margin derived from the sums); every populated month appears; an input with
no usable dates (or a `None` input) yields an empty result rather than an
error.  However, months with no rows lying between the first and the last
populated month are not omitted: pandas `resample` materialises them as
zero-sum rows, so the output is exactly one row per month of that
contiguous span. -/
theorem aggregate_monthly_spec (t : Table) (ht : t.hasOrderDate = true) :
    (datedPairs t = [] → aggregate_time_series (some t) = [])
    ∧ (∀ a ∈ aggregate_time_series (some t),
        a.sales = sumOpt ((monthGroup (datedPairs t) a.period).map (·.sales))
        ∧ a.profit = sumOpt ((monthGroup (datedPairs t) a.period).map (·.profit))
        ∧ a.quantity = sumOpt ((monthGroup (datedPairs t) a.period).map (·.quantity))
        ∧ a.margin = (if a.sales = 0 then 0 else safe_divide a.profit a.sales * 100))
    ∧ (∀ r ∈ t.rows, ∀ d : Date, r.orderDate = some d →
        ∃ a ∈ aggregate_time_series (some t), a.period = d.monthIdx)
    ∧ ((aggregate_time_series (some t)).map (·.period) =
        match ((datedPairs t).map Prod.fst).min?, ((datedPairs t).map Prod.fst).max? with
        | some lo, some hi => monthSpan lo hi
        | _, _ => [])
    ∧ aggregate_time_series none = [] := by
  refine ⟨?_, ?_, ?_, ?_, rfl⟩
  · intro h
    by_cases he : t.rows.isEmpty
    · simp [aggregate_time_series, he]
    · simp [aggregate_time_series, he, ht, h]
  · intro a ha
    by_cases he : t.rows.isEmpty
    · simp [aggregate_time_series, he] at ha
    · simp only [aggregate_time_series, he, ht, Bool.not_true, Bool.or_false,
        Bool.false_or, if_false, Bool.false_eq_true, ite_false] at ha
      rcases hmin : ((datedPairs t).map Prod.fst).min? with _ | lo
      · rw [hmin] at ha
        rcases hmax : ((datedPairs t).map Prod.fst).max? with _ | hi <;>
          rw [hmax] at ha <;> simp at ha
      · rcases hmax : ((datedPairs t).map Prod.fst).max? with _ | hi
        · rw [hmin, hmax] at ha
          simp at ha
        · rw [hmin, hmax] at ha
          obtain ⟨k, hk, rfl⟩ := List.mem_map.1 ha
          refine ⟨rfl, rfl, rfl, rfl⟩
  · intro r hr d hd
    have hpair : (d.monthIdx, r) ∈ datedPairs t :=
      List.mem_filterMap.2 ⟨r, hr, by rw [hd]; rfl⟩
    have hkey : d.monthIdx ∈ (datedPairs t).map Prod.fst :=
      List.mem_map.2 ⟨(d.monthIdx, r), hpair, rfl⟩
    have he : t.rows.isEmpty = false := by
      cases hre : t.rows.isEmpty
      · rfl
      · rw [List.isEmpty_iff.1 hre] at hr
        exact absurd hr (List.not_mem_nil r)
    rcases hmin : ((datedPairs t).map Prod.fst).min? with _ | lo
    · rw [List.min?_eq_none_iff.1 hmin] at hkey
      exact absurd hkey (List.not_mem_nil _)
    · rcases hmax : ((datedPairs t).map Prod.fst).max? with _ | hi
      · rw [List.max?_eq_none_iff.1 hmax] at hkey
        exact absurd hkey (List.not_mem_nil _)
      · have hspan : d.monthIdx ∈ monthSpan lo hi :=
          mem_monthSpan.2 ⟨int_min?_le hmin hkey, int_le_max? hmax hkey⟩
        refine ⟨aggRowFor (datedPairs t) d.monthIdx, ?_, rfl⟩
        simp only [aggregate_time_series, he, ht, Bool.not_true, Bool.or_false,
          Bool.false_or, if_false, Bool.false_eq_true, ite_false, hmin, hmax]
        exact List.mem_map.2 ⟨d.monthIdx, hspan, rfl⟩
  · by_cases he : t.rows.isEmpty
    · have hd : datedPairs t = [] := by
        simp [datedPairs, List.isEmpty_iff.1 he]
      simp [aggregate_time_series, he, hd]
    · simp only [aggregate_time_series, he, ht, Bool.not_true, Bool.or_false,
        Bool.false_or, if_false, Bool.false_eq_true, ite_false]
      rcases hmin : ((datedPairs t).map Prod.fst).min? with _ | lo <;>
        rcases hmax : ((datedPairs t).map Prod.fst).max? with _ | hi <;>
          simp only [List.map_nil, List.map_map]
      calc List.map ((fun a => a.period) ∘ aggRowFor (datedPairs t)) (monthSpan lo hi)
          = List.map id (monthSpan lo hi) := List.map_congr_left (fun k _ => rfl)
        _ = monthSpan lo hi := List.map_id _

/-- Three-row example from the specification: 2023-01-01 (sales 100),
2023-01-15 (sales 50), 2023-02-01 (sales 200). -/
def specExampleTable : Table :=
  { rows :=
      [{ orderDate := some ⟨2023, 1, 1⟩, sales := some 100, profit := some 30,
         quantity := some 2, country := some "USA", status := some "Shipped" },
       { orderDate := some ⟨2023, 1, 15⟩, sales := some 50, profit := some 10,
         quantity := some 1, country := some "USA", status := some "Shipped" },
       { orderDate := some ⟨2023, 2, 1⟩, sales := some 200, profit := some 60,
         quantity := some 3, country := some "USA", status := some "Shipped" }],
    hasOrderDate := true, hasSales := true, hasProfit := true }

/-- C2 witness: on the three-row example the amended theorem applies, and
monthly aggregation yields exactly two rows — January 2023 (month index
24276) with sales 150 and February 2023 with sales 200. -/
theorem aggregate_monthly_spec_witness :
    specExampleTable.hasOrderDate = true
    ∧ (∀ a ∈ aggregate_time_series (some specExampleTable),
        a.sales = sumOpt ((monthGroup (datedPairs specExampleTable) a.period).map (·.sales))
        ∧ a.profit = sumOpt ((monthGroup (datedPairs specExampleTable) a.period).map (·.profit))
        ∧ a.quantity = sumOpt ((monthGroup (datedPairs specExampleTable) a.period).map (·.quantity))
        ∧ a.margin = (if a.sales = 0 then 0 else safe_divide a.profit a.sales * 100))
    ∧ (aggregate_time_series (some specExampleTable)).map (·.period) = [24276, 24277]
    ∧ (aggregate_time_series (some specExampleTable)).map (·.sales) = [150, 200] := by
  have hmin : ((datedPairs specExampleTable).map Prod.fst).min? = some 24276 := by decide
  have hmax : ((datedPairs specExampleTable).map Prod.fst).max? = some 24277 := by decide
  have hspan : monthSpan 24276 24277 = [24276, 24277] := by decide
  have hlist : aggregate_time_series (some specExampleTable) =
      [aggRowFor (datedPairs specExampleTable) 24276,
       aggRowFor (datedPairs specExampleTable) 24277] := by
    simp only [aggregate_time_series, hmin, hmax, hspan, List.map_cons, List.map_nil]
    rfl
  have hs1 : (monthGroup (datedPairs specExampleTable) 24276).map (·.sales) =
      [some 100, some 50] := by decide
  have hs2 : (monthGroup (datedPairs specExampleTable) 24277).map (·.sales) =
      [some 200] := by decide
  refine ⟨rfl, (aggregate_monthly_spec specExampleTable rfl).2.1, ?_, ?_⟩
  · rw [hlist]
    rfl
  · rw [hlist]
    simp only [List.map_cons, List.map_nil, aggRowFor, hs1, hs2]
    norm_num [sumOpt, List.filterMap_cons]

/-! ### C6 -/

/-- Comparison table with revenue 100 and profit 20, used by KPI witnesses. -/
def cmpSample : Table :=
  { rows :=
      [{ orderDate := some ⟨2023, 1, 10⟩, sales := some 100, profit := some 20,
         quantity := some 1, country := some "USA", status := some "Shipped" }],
    hasOrderDate := true, hasSales := true, hasProfit := true }

/-- An empty current table (all columns present, zero rows). -/
def emptyTable : Table :=
  { rows := [], hasOrderDate := true, hasSales := true, hasProfit := true }

/-- C6 counterexample: for an empty current table and a non-empty comparison
table with nonzero totals, `calculate_kpis` reports the undefined marker
rather than the percentage-change formula (which would give -100 here), so
the claim as stated fails without a non-emptiness condition on the current
table. -/
theorem kpi_change_empty_current_counterexample :
    cmpSample.rows ≠ []
    ∧ tableSales cmpSample ≠ 0
    ∧ (calculate_kpis (some emptyTable) (some cmpSample)).revenue_change = none
    ∧ (calculate_kpis (some emptyTable) (some cmpSample)).revenue_change ≠
        some ((tableSales emptyTable - tableSales cmpSample) / tableSales cmpSample * 100) := by
  refine ⟨by decide, ?_, rfl, ?_⟩
  · show tableSales cmpSample ≠ 0
    norm_num [tableSales, cmpSample, sumOpt, List.filterMap_cons]
  · intro h
    exact Option.noConfusion ((rfl : (calculate_kpis (some emptyTable) (some cmpSample)).revenue_change = none) ▸ h)

/-- C6 (amended): for a non-empty current table, the revenue and profit
change KPIs equal `((current - previous) / previous) * 100` whenever the
comparison table is present, non-empty, and the corresponding previous total
is nonzero; each change is the undefined marker `none` — not zero and not an
exception — when the comparison table is absent or empty or the
corresponding previous total is zero. -/
theorem kpi_change_spec (c cmp : Table) (hc : c.rows ≠ []) :
    (cmp.rows ≠ [] → tableSales cmp ≠ 0 →
      (calculate_kpis (some c) (some cmp)).revenue_change =
        some ((tableSales c - tableSales cmp) / tableSales cmp * 100))
    ∧ (cmp.rows ≠ [] → tableProfit cmp ≠ 0 →
      (calculate_kpis (some c) (some cmp)).profit_change =
        some ((tableProfit c - tableProfit cmp) / tableProfit cmp * 100))
    ∧ (cmp.rows = [] →
      (calculate_kpis (some c) (some cmp)).revenue_change = none
      ∧ (calculate_kpis (some c) (some cmp)).profit_change = none)
    ∧ (tableSales cmp = 0 → (calculate_kpis (some c) (some cmp)).revenue_change = none)
    ∧ (tableProfit cmp = 0 → (calculate_kpis (some c) (some cmp)).profit_change = none)
    ∧ (calculate_kpis (some c) none).revenue_change = none
    ∧ (calculate_kpis (some c) none).profit_change = none := by
  have he : c.rows.isEmpty = false := by
    cases h : c.rows.isEmpty
    · rfl
    · exact absurd (List.isEmpty_iff.1 h) hc
  refine ⟨?_, ?_, ?_, ?_, ?_, ?_, ?_⟩
  · intro hcmp hs
    have hce : cmp.rows.isEmpty = false := by
      cases h : cmp.rows.isEmpty
      · rfl
      · exact absurd (List.isEmpty_iff.1 h) hcmp
    simp [calculate_kpis, he, hce, percentage_change, hs]
  · intro hcmp hp
    have hce : cmp.rows.isEmpty = false := by
      cases h : cmp.rows.isEmpty
      · rfl
      · exact absurd (List.isEmpty_iff.1 h) hcmp
    simp [calculate_kpis, he, hce, percentage_change, hp]
  · intro hcmp
    have hce : cmp.rows.isEmpty = true := by simp [hcmp]
    constructor <;> simp [calculate_kpis, he, hce]
  · intro hs
    by_cases hce : cmp.rows.isEmpty <;>
      simp [calculate_kpis, he, hce, percentage_change, hs]
  · intro hp
    by_cases hce : cmp.rows.isEmpty <;>
      simp [calculate_kpis, he, hce, percentage_change, hp]
  · simp [calculate_kpis, he]
  · simp [calculate_kpis, he]

/-- C6 witness: with current revenue 200 / profit 40 (one row) against the
comparison table with revenue 100 / profit 20, both changes are +100%. -/
theorem kpi_change_spec_witness :
    sampleCurrent.rows ≠ []
    ∧ cmpSample.rows ≠ []
    ∧ tableSales cmpSample ≠ 0
    ∧ (calculate_kpis (some sampleCurrent) (some cmpSample)).revenue_change =
        some ((tableSales sampleCurrent - tableSales cmpSample) / tableSales cmpSample * 100)
    ∧ (calculate_kpis (some sampleCurrent) (some cmpSample)).revenue_change = some 100 := by
  have hs : tableSales cmpSample ≠ 0 := by
    norm_num [tableSales, cmpSample, sumOpt, List.filterMap_cons]
  refine ⟨by decide, by decide, hs, ?_, ?_⟩
  · exact (kpi_change_spec sampleCurrent cmpSample (by decide)).1 (by decide) hs
  · have h := (kpi_change_spec sampleCurrent cmpSample (by decide)).1 (by decide) hs
    rw [h]
    norm_num [tableSales, sampleCurrent, cmpSample, febRow, sumOpt, List.filterMap_cons]

/-! ### C8 -/

/-- C8: `calculate_kpis` is pure and deterministic — its result does not
depend on the ambient clock or entropy available to the runtime, and two
calls on identical inputs yield identical snapshots. -/
theorem calculate_kpis_deterministic :
    ∀ (now1 entropy1 now2 entropy2 : Int) (current comparison : Option Table),
      calculate_kpis_env now1 entropy1 current comparison =
        calculate_kpis_env now2 entropy2 current comparison
      ∧ calculate_kpis_env now1 entropy1 current comparison =
        calculate_kpis current comparison :=
  fun _ _ _ _ _ _ => ⟨rfl, rfl⟩

/-! ### C9 -/

/-- C9: an empty (or `None`) current table produces the all-zero KPI
snapshot with both change fields set to the undefined marker, for every
comparison argument — the comparison table is ignored entirely. -/
theorem kpi_empty_current_spec :
    (∀ comparison, calculate_kpis none comparison = emptyKpiResult)
    ∧ (∀ (t : Table) (comparison : Option Table), t.rows = [] →
        calculate_kpis (some t) comparison = emptyKpiResult)
    ∧ emptyKpiResult =
        { total_revenue := 0, total_profit := 0, profit_margin := 0,
          total_orders := 0, avg_order_value := 0,
          revenue_change := none, profit_change := none } := by
  refine ⟨fun _ => rfl, ?_, rfl⟩
  intro t comparison h
  simp [calculate_kpis, h]

/-- C9 witness: the empty table against a non-empty comparison with nonzero
totals still yields the all-zero snapshot with undefined changes. -/
theorem kpi_empty_current_spec_witness :
    emptyTable.rows = []
    ∧ cmpSample.rows ≠ []
    ∧ calculate_kpis (some emptyTable) (some cmpSample) = emptyKpiResult :=
  ⟨rfl, by decide, kpi_empty_current_spec.2.1 emptyTable (some cmpSample) rfl⟩

/-! ### C10 -/

/-- C10: with the `Order Date` column present, filtering with empty country
and status selections equals filtering with absent selections and returns
exactly the rows whose parseable order date lies in the inclusive range;
and for every selection arguments, rows with a missing (unparseable) order
date are excluded. -/
theorem get_filtered_data_spec (df : Table) (startDay endDay : Int)
    (countries statusFilter : Option (List String)) (hd : df.hasOrderDate = true) :
    get_filtered_data df startDay endDay (some []) (some []) =
      df.rows.filter (fun r =>
        match r.orderDate with
        | some d => decide (startDay ≤ d.toDays ∧ d.toDays ≤ endDay)
        | none => false)
    ∧ get_filtered_data df startDay endDay none none =
        get_filtered_data df startDay endDay (some []) (some [])
    ∧ (∀ r ∈ get_filtered_data df startDay endDay countries statusFilter,
        r.orderDate ≠ none) := by
  refine ⟨by simp [get_filtered_data, seqTruthy, hd], by simp [get_filtered_data, seqTruthy], ?_⟩
  intro r hr hnone
  have hdate : r ∈ df.rows.filter (fun r =>
      match r.orderDate with
      | some d => decide (startDay ≤ d.toDays ∧ d.toDays ≤ endDay)
      | none => false) := by
    simp only [get_filtered_data, hd, if_true] at hr
    by_cases h1 : seqTruthy countries <;> by_cases h2 : seqTruthy statusFilter <;>
      simp only [h1, h2, if_true, if_false, ite_true, ite_false] at hr <;>
      first
        | exact hr
        | exact (List.mem_filter.1 hr).1
        | exact (List.mem_filter.1 (List.mem_filter.1 hr).1).1
  have hp := (List.mem_filter.1 hdate).2
  rw [hnone] at hp
  exact Bool.noConfusion hp

/-- Rows used by the C10 witness: one in range, one out of range, one with
an unparseable date. -/
def filterDemo : Table :=
  { rows :=
      [{ orderDate := some ⟨2023, 2, 1⟩, sales := some 10, profit := some 1,
         quantity := some 1, country := some "USA", status := some "Shipped" },
       { orderDate := some ⟨2023, 5, 1⟩, sales := some 20, profit := some 2,
         quantity := some 1, country := some "USA", status := some "Shipped" },
       { orderDate := none, sales := some 30, profit := some 3,
         quantity := some 1, country := some "USA", status := some "Shipped" }],
    hasOrderDate := true, hasSales := true, hasProfit := true }

/-- C10 witness: filtering the demo table over February 2023 with empty
selection lists keeps exactly the one in-range row (the missing-date row is
excluded), and equals filtering with absent selections. -/
theorem get_filtered_data_spec_witness :
    filterDemo.hasOrderDate = true
    ∧ get_filtered_data filterDemo 19389 19416 (some []) (some []) =
        filterDemo.rows.filter (fun r =>
          match r.orderDate with
          | some d => decide (19389 ≤ d.toDays ∧ d.toDays ≤ 19416)
          | none => false)
    ∧ get_filtered_data filterDemo 19389 19416 none none =
        get_filtered_data filterDemo 19389 19416 (some []) (some [])
    ∧ (get_filtered_data filterDemo 19389 19416 (some []) (some [])).length = 1 :=
  ⟨rfl,
   (get_filtered_data_spec filterDemo 19389 19416 (some []) (some []) rfl).1,
   (get_filtered_data_spec filterDemo 19389 19416 none none rfl).2.1,
   by decide⟩

/-! ### Forecasting helper lemmas -/

theorem forecastMALoop_eq (w : Nat) : ∀ (n : Nat) (buf : List ℚ),
    forecastMALoop w n buf = specMALoop w n buf := by
  intro n
  induction n with
  | zero => intro buf; rfl
  | succ n ih =>
    intro buf
    have havg : (if buf.isEmpty then (0 : ℚ) else buf.sum / (buf.length : ℚ))
        = buf.sum / (buf.length : ℚ) := by
      cases buf with
      | nil => simp
      | cons a l => rfl
    have hnext : ∀ ap : List ℚ,
        (if w < ap.length then ap.drop (ap.length - w) else ap) = takeLast w ap := by
      intro ap
      by_cases h : w < ap.length
      · simp [takeLast, h]
      · have h0 : ap.length - w = 0 := by omega
        simp [takeLast, h, h0]
    simp only [forecastMALoop, specMALoop]
    rw [havg, hnext]
    exact congrArg _ (ih _)

theorem specMALoop_length (w : Nat) : ∀ (n : Nat) (buf : List ℚ),
    (specMALoop w n buf).length = n := by
  intro n
  induction n with
  | zero => intro buf; rfl
  | succ n ih =>
    intro buf
    simp only [specMALoop, List.length_cons, ih]

theorem forecastMovingAverage_eq_spec (values : List ℚ) (window horizon : Nat) :
    forecastMovingAverage values window horizon =
      spec_forecast_moving_average values (max 1 window) horizon := by
  unfold forecastMovingAverage spec_forecast_moving_average
  cases values with
  | nil => simp [takeLast, forecastMALoop_eq]
  | cons a l =>
    have hne : (a :: l).isEmpty = false := rfl
    have hlen : ((a :: l).drop ((a :: l).length - max 1 window)).length ≠ 0 := by
      rw [List.length_drop]
      have h1 : 1 ≤ max 1 window := le_max_left 1 window
      have h2 : 1 ≤ (a :: l).length := by simp
      omega
    have hemp : ((a :: l).drop ((a :: l).length - max 1 window)).isEmpty = false := by
      cases hx : (a :: l).drop ((a :: l).length - max 1 window) with
      | nil => exact absurd (by rw [hx]; rfl) hlen
      | cons b m => rfl
    simp only [hne, hemp, Bool.not_false, Bool.false_and, Bool.and_false,
      Bool.false_eq_true, ite_false, takeLast]
    exact forecastMALoop_eq _ _ _

theorem forecastMovingAverage_length (values : List ℚ) (window horizon : Nat) :
    (forecastMovingAverage values window horizon).length = horizon := by
  rw [forecastMovingAverage_eq_spec]
  exact specMALoop_length _ _ _

theorem zValue_pos (confidence_level : ℚ) : 0 < zValue confidence_level := by
  rw [zValue]
  split <;> norm_num

theorem stdErrorOf_nonneg (values : List ℚ) (window : Nat) :
    0 ≤ stdErrorOf values window := by
  rw [stdErrorOf]
  split
  · exact Real.sqrt_nonneg _
  · exact le_refl 0

theorem ciDeltaOf_nonneg (values : List ℚ) (window : Nat) (confidence_level : ℚ) :
    0 ≤ ciDeltaOf values window confidence_level := by
  rw [ciDeltaOf]
  split
  · exact le_refl 0
  · refine mul_nonneg ?_ (stdErrorOf_nonneg values window)
    have h := zValue_pos confidence_level
    exact_mod_cast le_of_lt h

theorem sampleVar_nil : sampleVar [] = 0 := by
  norm_num [sampleVar]

theorem sampleVar_singleton (x : ℚ) : sampleVar [x] = 0 := by
  norm_num [sampleVar]

/-! ### C4 -/

/-- C4: the confidence half-width equals `z` times the sample standard
deviation (divisor `N - 1`) of the in-sample residuals, it is 0 whenever
fewer than 2 residuals exist, and `z` is 1.96 exactly when the configured
confidence level is within 0.001 of 0.95 (strictly) and 1.0 otherwise. -/
theorem confidence_halfwidth_spec (values : List ℚ) (window : Nat) (confidence_level : ℚ) :
    ciDeltaOf values window confidence_level =
      (zValue confidence_level : ℝ) * Real.sqrt (sampleVar (residualsOf values window))
    ∧ ((residualsOf values window).length < 2 →
        ciDeltaOf values window confidence_level = 0)
    ∧ (|confidence_level - 95 / 100| < 1 / 1000 → zValue confidence_level = 196 / 100)
    ∧ (¬ |confidence_level - 95 / 100| < 1 / 1000 → zValue confidence_level = 1) := by
  refine ⟨?_, ?_, ?_, ?_⟩
  · by_cases hlen : 1 < (residualsOf values window).length
    · have hstd : stdErrorOf values window =
          Real.sqrt (sampleVar (residualsOf values window)) := by
        rw [stdErrorOf, if_pos hlen]
      rw [ciDeltaOf, hstd]
      by_cases h0 : Real.sqrt (sampleVar (residualsOf values window)) = 0
      · rw [if_pos h0, h0, mul_zero]
      · rw [if_neg h0]
    · have hstd : stdErrorOf values window = 0 := by
        rw [stdErrorOf, if_neg hlen]
      have hvar : sampleVar (residualsOf values window) = 0 := by
        cases hr : residualsOf values window with
        | nil => exact sampleVar_nil
        | cons a l =>
          have h1 : l.length = 0 := by
            have := hlen
            rw [hr] at this
            simp only [List.length_cons] at this
            omega
          rw [List.length_eq_zero.1 h1]
          exact sampleVar_singleton a
      rw [ciDeltaOf, hstd, hvar]
      simp
  · intro h
    have hlen : ¬ 1 < (residualsOf values window).length := by omega
    have hstd : stdErrorOf values window = 0 := by
      rw [stdErrorOf, if_neg hlen]
    rw [ciDeltaOf, hstd]
    simp
  · intro h
    rw [zValue, if_pos h]
  · intro h
    rw [zValue, if_neg h]

/-- C4 witness: a training series with fewer than 2 residuals has half-width
0, the 0.95 confidence level selects `z = 1.96`, and 0.5 selects `z = 1`. -/
theorem confidence_halfwidth_spec_witness :
    (residualsOf [] 3).length < 2
    ∧ ciDeltaOf [] 3 (95 / 100) = 0
    ∧ zValue (95 / 100) = 196 / 100
    ∧ zValue (1 / 2) = 1 := by
  have habs : ¬ |(1 : ℚ) / 2 - 95 / 100| < 1 / 1000 := by
    have h : |(1 : ℚ) / 2 - 95 / 100| = 9 / 20 := by
      rw [abs_of_nonpos (by norm_num)]
      norm_num
    rw [h]
    norm_num
  refine ⟨by decide, ?_, ?_, ?_⟩
  · exact (confidence_halfwidth_spec [] 3 (95 / 100)).2.1 (by decide)
  · exact (confidence_halfwidth_spec [] 3 (95 / 100)).2.2.1 (by norm_num)
  · exact (confidence_halfwidth_spec [] 3 (1 / 2)).2.2.2 habs

/-! ### C3 -/

/-- The forecast-type rows of a generated artifact, in order. -/
noncomputable def forecastRowsOf (history : List (Int × ℚ)) (cfg : ForecastConfig)
    (ts : Int) : List ArtifactRow :=
  (build_forecast_rows history cfg ts).filter (fun r => decide (r.rtype = RowType.forecast))

theorem filter_rtype_actual {α : Type} (l : List α) (f : α → ArtifactRow)
    (hf : ∀ p, (f p).rtype = RowType.actual) :
    (l.map f).filter (fun r => decide (r.rtype = RowType.forecast)) = [] := by
  apply List.filter_eq_nil_iff.2
  intro a ha
  obtain ⟨p, hp, rfl⟩ := List.mem_map.1 ha
  simp [hf p]

theorem filter_rtype_forecast {α : Type} (l : List α) (f : α → ArtifactRow)
    (hf : ∀ p, (f p).rtype = RowType.forecast) :
    (l.map f).filter (fun r => decide (r.rtype = RowType.forecast)) = l.map f := by
  apply List.filter_eq_self.2
  intro a ha
  obtain ⟨p, hp, rfl⟩ := List.mem_map.1 ha
  simp [hf p]

theorem forecastRowsOf_eq (history : List (Int × ℚ)) (cfg : ForecastConfig) (ts : Int) :
    forecastRowsOf history cfg ts =
      ((forecastMovingAverage (history.map Prod.snd) (max 1 cfg.window) cfg.horizon).zip
          (List.range cfg.horizon)).map (fun vi => (
        { period_start := (history.map Prod.fst).max?.getD 0 + 1 + (vi.2 : Int)
          metric := cfg.metric
          value := vi.1
          rtype := RowType.forecast
          lower_bound := max ((vi.1 : ℝ) -
            ciDeltaOf (history.map Prod.snd) (max 1 cfg.window) cfg.confidence_level) 0
          upper_bound := (vi.1 : ℝ) +
            ciDeltaOf (history.map Prod.snd) (max 1 cfg.window) cfg.confidence_level
          method := "moving_average"
          horizon := vi.2 + 1
          generated_at := ts
          confidence_level := cfg.confidence_level
          evaluation_metric := "MAE"
          evaluation_value := maeOf (history.map Prod.snd) (max 1 cfg.window)
          training_start := (history.map Prod.fst).min?.getD 0
          training_end := (history.map Prod.fst).max?.getD 0 } : ArtifactRow)) := by
  simp only [forecastRowsOf, build_forecast_rows, List.filter_append]
  rw [filter_rtype_actual _ _ (fun p => rfl), filter_rtype_forecast _ _ (fun p => rfl),
    List.nil_append]

/-- C3: for a non-empty training series (its last period exists) and window
at least 1, the generated artifact carries exactly `horizon` forecast rows;
their values follow the trailing-buffer recurrence exactly as the
specification words it (`spec_forecast_moving_average`: buffer seeded with
the last `window` actuals, each point the buffer mean, fed back and
truncated), and they sit at successive month indices starting the month
after the last training period, with horizon indices `1..H`. -/
theorem forecast_extrapolation_spec (history : List (Int × ℚ)) (cfg : ForecastConfig)
    (ts : Int) (lastPeriod : Int)
    (hwin : 1 ≤ cfg.window)
    (hlast : (history.map Prod.fst).max? = some lastPeriod) :
    (forecastRowsOf history cfg ts).length = cfg.horizon
    ∧ (forecastRowsOf history cfg ts).map (·.value) =
        spec_forecast_moving_average (history.map Prod.snd) cfg.window cfg.horizon
    ∧ (forecastRowsOf history cfg ts).map (·.period_start) =
        (List.range cfg.horizon).map (fun i : Nat => lastPeriod + 1 + (i : Int))
    ∧ (forecastRowsOf history cfg ts).map (·.horizon) =
        (List.range cfg.horizon).map (fun i => i + 1) := by
  have hmax1 : max 1 cfg.window = cfg.window := max_eq_right hwin
  have hflen : (forecastMovingAverage (history.map Prod.snd) (max 1 cfg.window)
      cfg.horizon).length = cfg.horizon := forecastMovingAverage_length _ _ _
  have hzip : ((forecastMovingAverage (history.map Prod.snd) (max 1 cfg.window)
      cfg.horizon).zip (List.range cfg.horizon)).length = cfg.horizon := by
    rw [List.length_zip, hflen, List.length_range, Nat.min_self]
  refine ⟨?_, ?_, ?_, ?_⟩
  · rw [forecastRowsOf_eq, List.length_map, hzip]
  · rw [forecastRowsOf_eq, List.map_map]
    calc ((forecastMovingAverage (history.map Prod.snd) (max 1 cfg.window)
            cfg.horizon).zip (List.range cfg.horizon)).map _
        = ((forecastMovingAverage (history.map Prod.snd) (max 1 cfg.window)
            cfg.horizon).zip (List.range cfg.horizon)).map Prod.fst :=
          List.map_congr_left (fun vi _ => rfl)
      _ = forecastMovingAverage (history.map Prod.snd) (max 1 cfg.window) cfg.horizon :=
          List.map_fst_zip _ _ (by rw [hflen, List.length_range])
      _ = spec_forecast_moving_average (history.map Prod.snd) cfg.window cfg.horizon := by
          rw [forecastMovingAverage_eq_spec, hmax1, hmax1]
  · rw [forecastRowsOf_eq, List.map_map, hlast]
    calc ((forecastMovingAverage (history.map Prod.snd) (max 1 cfg.window)
            cfg.horizon).zip (List.range cfg.horizon)).map _
        = ((forecastMovingAverage (history.map Prod.snd) (max 1 cfg.window)
            cfg.horizon).zip (List.range cfg.horizon)).map
              ((fun i : Nat => lastPeriod + 1 + (i : Int)) ∘ Prod.snd) :=
          List.map_congr_left (fun vi _ => rfl)
      _ = (((forecastMovingAverage (history.map Prod.snd) (max 1 cfg.window)
            cfg.horizon).zip (List.range cfg.horizon)).map Prod.snd).map
              (fun i : Nat => lastPeriod + 1 + (i : Int)) := by
          rw [List.map_map]
      _ = (List.range cfg.horizon).map (fun i : Nat => lastPeriod + 1 + (i : Int)) := by
          rw [List.map_snd_zip _ _ (by rw [hflen, List.length_range])]
  · rw [forecastRowsOf_eq, List.map_map]
    calc ((forecastMovingAverage (history.map Prod.snd) (max 1 cfg.window)
            cfg.horizon).zip (List.range cfg.horizon)).map _
        = ((forecastMovingAverage (history.map Prod.snd) (max 1 cfg.window)
            cfg.horizon).zip (List.range cfg.horizon)).map
              ((fun i : Nat => i + 1) ∘ Prod.snd) :=
          List.map_congr_left (fun vi _ => rfl)
      _ = (((forecastMovingAverage (history.map Prod.snd) (max 1 cfg.window)
            cfg.horizon).zip (List.range cfg.horizon)).map Prod.snd).map
              (fun i : Nat => i + 1) := by
          rw [List.map_map]
      _ = (List.range cfg.horizon).map (fun i : Nat => i + 1) := by
          rw [List.map_snd_zip _ _ (by rw [hflen, List.length_range])]

/-- Two-month training series used by the C3 witness. -/
def twoMonthHistory : List (Int × ℚ) := [(24276, 10), (24277, 20)]

/-- C3 witness: with window 2 and horizon 3 on the two-month series the
recurrence produces 15, 17.5, 16.25 — each point the mean of the trailing
buffer with forecasts fed back in. -/
theorem forecast_extrapolation_spec_witness :
    (1 ≤ 2)
    ∧ (twoMonthHistory.map Prod.fst).max? = some 24277
    ∧ (forecastRowsOf twoMonthHistory ⟨"Sales", 3, 95 / 100, 2⟩ 0).map (·.value) =
        spec_forecast_moving_average (twoMonthHistory.map Prod.snd) 2 3
    ∧ spec_forecast_moving_average (twoMonthHistory.map Prod.snd) 2 3 =
        [15, 35 / 2, 65 / 4] := by
  refine ⟨by decide, by decide, ?_, ?_⟩
  · exact (forecast_extrapolation_spec twoMonthHistory ⟨"Sales", 3, 95 / 100, 2⟩ 0 24277
      (by decide) (by decide)).2.1
  · show specMALoop 2 3 (takeLast 2 (twoMonthHistory.map Prod.snd)) = [15, 35 / 2, 65 / 4]
    have h1 : takeLast 2 (twoMonthHistory.map Prod.snd) = [10, 20] := by decide
    rw [h1]
    norm_num [specMALoop, takeLast]

/-! ### C5 -/

/-- C5 (amended): in every generated artifact, each actual-type row has
horizon 0 and a zero-width band (both bounds equal to the value), and each
forecast-type row has `lower = max(value - delta, 0)` and
`upper = value + delta` for the confidence half-width `delta`; consequently
`lower_bound ≥ 0` and `upper_bound ≥ value` always hold, and
`value ≥ lower_bound` holds whenever the forecast value is nonnegative —
a negative forecast value (possible when training values are negative) is
clamped from below by 0 and then sits below its own lower bound. -/
theorem forecast_bounds_spec (history : List (Int × ℚ)) (cfg : ForecastConfig) (ts : Int) :
    ∀ r ∈ build_forecast_rows history cfg ts,
      (r.rtype = RowType.actual →
        r.horizon = 0 ∧ r.lower_bound = (r.value : ℝ) ∧ r.upper_bound = (r.value : ℝ))
      ∧ (r.rtype = RowType.forecast →
        r.lower_bound = max ((r.value : ℝ) -
            ciDeltaOf (history.map Prod.snd) (max 1 cfg.window) cfg.confidence_level) 0
        ∧ r.upper_bound = (r.value : ℝ) +
            ciDeltaOf (history.map Prod.snd) (max 1 cfg.window) cfg.confidence_level
        ∧ 0 ≤ r.lower_bound
        ∧ (r.value : ℝ) ≤ r.upper_bound
        ∧ (0 ≤ r.value → r.lower_bound ≤ (r.value : ℝ))) := by
  intro r hr
  simp only [build_forecast_rows] at hr
  rcases List.mem_append.1 hr with h | h
  · obtain ⟨p, hp, rfl⟩ := List.mem_map.1 h
    constructor
    · intro _
      exact ⟨rfl, rfl, rfl⟩
    · intro hty
      exact absurd hty (by simp)
  · obtain ⟨vi, hvi, rfl⟩ := List.mem_map.1 h
    constructor
    · intro hty
      exact absurd hty (by simp)
    · intro _
      refine ⟨rfl, rfl, le_max_right _ _, ?_, ?_⟩
      · exact le_add_of_nonneg_right (ciDeltaOf_nonneg _ _ _)
      · intro hv
        apply max_le
        · exact sub_le_self _ (ciDeltaOf_nonneg _ _ _)
        · exact_mod_cast hv

/-- One-month training series with a negative monthly total. -/
def negHistory : List (Int × ℚ) := [(24276, -100)]

/-- C5 counterexample: a training series with the single monthly value -100
(window 1, horizon 1) produces a forecast row with value -100, half-width 0
and lower bound `max(-100, 0) = 0`, so `value ≥ lower_bound` fails. -/
theorem forecast_bounds_counterexample :
    ∃ r ∈ build_forecast_rows negHistory ⟨"Sales", 1, 95 / 100, 1⟩ 0,
      r.rtype = RowType.forecast ∧ r.lower_bound = 0 ∧ (r.value : ℝ) < r.lower_bound := by
  have hlen : ¬ 1 < (residualsOf (negHistory.map Prod.snd) (max 1 1)).length := by decide
  have hstd : stdErrorOf (negHistory.map Prod.snd) (max 1 1) = 0 := by
    rw [stdErrorOf, if_neg hlen]
  have hδ : ciDeltaOf (negHistory.map Prod.snd) (max 1 1) (95 / 100) = 0 := by
    rw [ciDeltaOf, hstd]
    simp
  have hf : forecastMovingAverage (negHistory.map Prod.snd) (max 1 1) 1 = [-100] := by
    show forecastMovingAverage [-100] (max 1 1) 1 = [-100]
    norm_num [forecastMovingAverage, forecastMALoop]
  simp only [build_forecast_rows]
  refine ⟨_, List.mem_append.2 (Or.inr (List.mem_map.2
    ⟨((-100 : ℚ), (0 : Nat)), ?_, rfl⟩)), rfl, ?_, ?_⟩
  · rw [hf, show List.range 1 = [0] from rfl]
    exact List.mem_singleton.2 rfl
  · show max (((-100 : ℚ) : ℝ) - ciDeltaOf (negHistory.map Prod.snd) (max 1 1) (95 / 100)) 0 = 0
    rw [hδ]
    push_cast
    norm_num
  · show ((-100 : ℚ) : ℝ) < max (((-100 : ℚ) : ℝ) -
        ciDeltaOf (negHistory.map Prod.snd) (max 1 1) (95 / 100)) 0
    rw [hδ]
    push_cast
    norm_num

/-- C5 witness: on a nonnegative training series the amended theorem applies
to the first actual row, giving horizon 0 and the zero-width band. -/
theorem forecast_bounds_spec_witness :
    ∃ r ∈ build_forecast_rows twoMonthHistory defaultForecastConfig 0,
      r.rtype = RowType.actual
      ∧ r.horizon = 0 ∧ r.lower_bound = (r.value : ℝ) ∧ r.upper_bound = (r.value : ℝ) := by
  have hmem : ∃ r ∈ build_forecast_rows twoMonthHistory defaultForecastConfig 0,
      r.rtype = RowType.actual := by
    simp only [build_forecast_rows]
    exact ⟨_, List.mem_append.2 (Or.inl (List.mem_map.2
      ⟨((24276 : Int), (10 : ℚ)), by simp [twoMonthHistory], rfl⟩)), rfl⟩
  obtain ⟨r, hr, hty⟩ := hmem
  have h := (forecast_bounds_spec twoMonthHistory defaultForecastConfig 0 r hr).1 hty
  exact ⟨r, hr, hty, h.1, h.2.1, h.2.2⟩

/-! ### C7 -/

theorem missingColumnsOf_artifact : missingColumnsOf ARTIFACT_COLUMNS = [] := by
  have hfilt : EXPECTED_COLUMNS.filter (fun c => !ARTIFACT_COLUMNS.contains c) = [] := by
    decide
  rw [missingColumnsOf, hfilt, List.mergeSort_nil]

theorem missingParseDatesOf_artifact : missingParseDatesOf ARTIFACT_COLUMNS = [] := by
  have hfilt : PARSE_DATES_COLUMNS.filter (fun c => !ARTIFACT_COLUMNS.contains c) = [] := by
    decide
  rw [missingParseDatesOf, hfilt, List.mergeSort_nil]

/-- The artifact file `generate_forecast_artifact` writes for a prepared
training frame under the default configuration. -/
noncomputable def generatedFile (history : List (Int × ℚ)) (now : Int) : CsvFile :=
  { columns := ARTIFACT_COLUMNS
    records := build_forecast_rows history defaultForecastConfig now }

/-- The file system after a successful generation over state `st`. -/
noncomputable def generatedState (st : FsState) (history : List (Int × ℚ)) (now : Int) :
    FsState :=
  { artifactFile := some (generatedFile history now), dataset := st.dataset }

/-- C7 (amended): the loader reads without regenerating when the artifact
exists and no refresh is forced.  The read itself fails first — with the
missing-parse-dates error of `pd.read_csv` naming only the absent date
columns — whenever any of `period_start`, `generated_at`, `training_start`,
`training_end` is missing from the file; only when all four are present
does the loader fail with the schema error listing exactly the sorted
missing expected columns if and only if some expected column is absent
(returning the read table otherwise).  It regenerates before reading
exactly when the artifact is missing or a refresh is forced; and on a
missing artifact whose regeneration succeeds, the first call persists a
complete artifact and returns it, while a second unforced call returns the
same table from the same unchanged file system. -/
theorem forecast_loader_spec (st : FsState) (now now2 : Int) :
    (∀ f : CsvFile, st.artifactFile = some f →
      load_forecast_results false now st = (readArtifact st, st)
      ∧ (missingParseDatesOf f.columns = [] → missingColumnsOf f.columns = [] →
          load_forecast_results false now st = (.ok f, st))
      ∧ (missingParseDatesOf f.columns = [] → missingColumnsOf f.columns ≠ [] →
          load_forecast_results false now st =
            (.error (.schemaError (missingColumnsOf f.columns)), st))
      ∧ (missingParseDatesOf f.columns ≠ [] →
          load_forecast_results false now st =
            (.error (.parseDatesError (missingParseDatesOf f.columns)), st))
      ∧ (∀ cname, cname ∈ missingColumnsOf f.columns ↔
          (cname ∈ EXPECTED_COLUMNS ∧ ¬ cname ∈ f.columns))
      ∧ (∀ cname, cname ∈ missingParseDatesOf f.columns ↔
          (cname ∈ PARSE_DATES_COLUMNS ∧ ¬ cname ∈ f.columns)))
    ∧ (∀ force : Bool, st.artifactFile = none ∨ force = true →
        load_forecast_results force now st =
          (match generate_forecast_artifact now none st with
           | .error e => (.error e, st)
           | .ok st2 => (readArtifact st2, st2)))
    ∧ (st.artifactFile = none →
        (prepare_training_frame st.dataset "Sales").isOk = true →
        ∃ (g : CsvFile) (st2 : FsState),
          load_forecast_results false now st = (.ok g, st2)
          ∧ st2.artifactFile = some g
          ∧ missingColumnsOf g.columns = []
          ∧ load_forecast_results false now2 st2 = (.ok g, st2)) := by
  refine ⟨?_, ?_, ?_⟩
  · intro f hf
    have hnone : st.artifactFile.isNone = false := by
      rw [hf]
      rfl
    have hload : load_forecast_results false now st = (readArtifact st, st) := by
      rw [load_forecast_results, hnone]
      simp
    refine ⟨hload, ?_, ?_, ?_, ?_, ?_⟩
    · intro hpd hm
      rw [hload]
      simp [readArtifact, hf, hpd, hm]
    · intro hpd hm
      have hne : (missingColumnsOf f.columns).isEmpty = false := by
        cases h : (missingColumnsOf f.columns).isEmpty
        · rfl
        · exact absurd (List.isEmpty_iff.1 h) hm
      rw [hload]
      simp [readArtifact, hf, hpd, hne]
    · intro hpd
      have hne : (missingParseDatesOf f.columns).isEmpty = false := by
        cases h : (missingParseDatesOf f.columns).isEmpty
        · rfl
        · exact absurd (List.isEmpty_iff.1 h) hpd
      rw [hload]
      simp [readArtifact, hf, hne]
    · intro cname
      simp [missingColumnsOf, List.mem_mergeSort, List.mem_filter, List.contains,
        List.elem_iff]
    · intro cname
      simp [missingParseDatesOf, List.mem_mergeSort, List.mem_filter, List.contains,
        List.elem_iff]
  · intro force hor
    have hcond : (force || st.artifactFile.isNone) = true := by
      rcases hor with h | h
      · rw [h]
        simp
      · rw [h]
        simp
    rw [load_forecast_results, hcond]
    simp
  · intro hnone hprep
    rcases hp : prepare_training_frame st.dataset "Sales" with e | history
    · rw [hp] at hprep
      exact Bool.noConfusion hprep
    cases hd : st.dataset with
    | none =>
      rw [hd] at hp
      exact Except.noConfusion hp
    | some t =>
      rw [hd] at hp
      have hgen : generate_forecast_artifact now none st =
          .ok (generatedState st history now) := by
        simp only [generate_forecast_artifact, Option.getD, hd, defaultForecastConfig,
          hp, generatedState, generatedFile]
      have hisnone : st.artifactFile.isNone = true := by
        rw [hnone]
        rfl
      have hread : readArtifact (generatedState st history now) =
          .ok (generatedFile history now) := by
        simp [readArtifact, generatedState, generatedFile, missingColumnsOf_artifact,
          missingParseDatesOf_artifact]
      have hload : load_forecast_results false now st =
          (.ok (generatedFile history now), generatedState st history now) := by
        rw [load_forecast_results, hisnone]
        simp only [Bool.or_true, if_true, hgen, hread]
      have hsecond : load_forecast_results false now2 (generatedState st history now) =
          (.ok (generatedFile history now), generatedState st history now) := by
        rw [load_forecast_results]
        simp [show (generatedState st history now).artifactFile.isNone = false from rfl,
          hread]
      exact ⟨_, _, hload, rfl, missingColumnsOf_artifact, hsecond⟩

/-- A pre-existing artifact file missing both the `metric` and the
`period_start` columns. -/
def incompleteFile : CsvFile :=
  { columns := ["value", "type", "lower_bound", "upper_bound", "method", "horizon",
      "generated_at", "confidence_level", "evaluation_metric", "evaluation_value",
      "training_start", "training_end"]
    records := [] }

/-- File-system state holding the incomplete artifact. -/
def incompleteState : FsState :=
  { artifactFile := some incompleteFile, dataset := some sampleFull }

/-- C7 counterexample: on a pre-existing artifact missing both `metric` and
`period_start`, expected columns are absent, yet the unforced load does not
fail with the schema error listing the missing column names — `pd.read_csv`
raises its missing-parse-dates error first, naming only `period_start`. -/
theorem forecast_loader_counterexample :
    "metric" ∈ missingColumnsOf incompleteFile.columns
    ∧ "period_start" ∈ missingColumnsOf incompleteFile.columns
    ∧ missingColumnsOf incompleteFile.columns ≠ []
    ∧ load_forecast_results false 0 incompleteState =
        (.error (.parseDatesError ["period_start"]), incompleteState)
    ∧ (.error (.parseDatesError ["period_start"]) : Except PipelineError CsvFile) ≠
        .error (.schemaError (missingColumnsOf incompleteFile.columns)) := by
  have hm1 : "metric" ∈ missingColumnsOf incompleteFile.columns := by
    rw [missingColumnsOf, List.mem_mergeSort]
    decide
  have hm2 : "period_start" ∈ missingColumnsOf incompleteFile.columns := by
    rw [missingColumnsOf, List.mem_mergeSort]
    decide
  have hpd : missingParseDatesOf incompleteFile.columns = ["period_start"] := by
    have hfilt : PARSE_DATES_COLUMNS.filter
        (fun c => !incompleteFile.columns.contains c) = ["period_start"] := by
      decide
    rw [missingParseDatesOf, hfilt]
    exact List.perm_singleton.1 (List.mergeSort_perm _ _)
  have hread : readArtifact incompleteState =
      .error (.parseDatesError ["period_start"]) := by
    show readArtifact { artifactFile := some incompleteFile, dataset := some sampleFull } =
      .error (.parseDatesError ["period_start"])
    simp [readArtifact, hpd]
  have hload : load_forecast_results false 0 incompleteState =
      (readArtifact incompleteState, incompleteState) := by
    rw [load_forecast_results]
    simp [show incompleteState.artifactFile.isNone = false from rfl]
  refine ⟨hm1, hm2, List.ne_nil_of_mem hm1, by rw [hload, hread], ?_⟩
  intro h
  simp at h

/-- File-system state with no artifact and the sample dataset on disk. -/
def loaderDemoState : FsState :=
  { artifactFile := none, dataset := some sampleFull }

/-- C7 witness: starting from a missing artifact over the sample dataset,
the first unforced load generates and returns a schema-complete artifact and
a second unforced load returns the same table without touching the file
system. -/
theorem forecast_loader_spec_witness :
    loaderDemoState.artifactFile = none
    ∧ (prepare_training_frame loaderDemoState.dataset "Sales").isOk = true
    ∧ ∃ (g : CsvFile) (st2 : FsState),
        load_forecast_results false 0 loaderDemoState = (.ok g, st2)
        ∧ st2.artifactFile = some g
        ∧ missingColumnsOf g.columns = []
        ∧ load_forecast_results false 1 st2 = (.ok g, st2) :=
  ⟨rfl, by decide, (forecast_loader_spec loaderDemoState 0 1).2.2 rfl (by decide)⟩

end SalesDash
